import Mathlib

/-!
Verification of the VeloServe PHP execution subsystem.

This file gives a shallow embedding of the PHP orchestration code
(`src/php/mod.rs`, `src/php/sapi.rs`, `src/server/handler.rs`,
`src/php_worker/{protocol,server,pool}.rs`) and proves or refutes the
frozen specification claims about it.  Rust strings are modelled as
`List Char`, raw byte buffers as `List Nat` (each element a byte value),
and Rust `HashMap`s as association lists in iteration order.
-/

namespace Veloserve

/-! ## Rust string primitives -/

/-- Rust `str::split(sep)`: splits at every occurrence of `sep`; adjacent
separators and separators at either end produce empty fields, and the
split of the empty string is one empty field. -/
def rustSplit (sep : Char) : List Char → List (List Char)
  | [] => [[]]
  | c :: rest =>
    if c = sep then [] :: rustSplit sep rest
    else
      match rustSplit sep rest with
      | [] => [[c]]
      | g :: gs => (c :: g) :: gs

theorem rustSplit_ne_nil (sep : Char) (s : List Char) : rustSplit sep s ≠ [] := by
  cases s with
  | nil => simp [rustSplit]
  | cons c rest =>
    simp only [rustSplit]
    split
    · simp
    · cases h : rustSplit sep rest <;> simp

/-- Rust `char::is_whitespace`, restricted to the ASCII whitespace
characters that can occur in the header lines this development reasons
about (space, tab, line feed, vertical tab, form feed, carriage return). -/
def isRustWhitespace (c : Char) : Bool :=
  c = ' ' || c = '\t' || c = '\n' || c = Char.ofNat 11 || c = Char.ofNat 12 || c = '\r'

/-- Rust `str::trim`: removes leading and trailing whitespace. -/
def rustTrim (s : List Char) : List Char :=
  ((s.dropWhile isRustWhitespace).reverse.dropWhile isRustWhitespace).reverse

/-- Rust `str::trim_matches(|c| c == '\r' || c == '\n')`. -/
def trimCrLf (s : List Char) : List Char :=
  let p : Char → Bool := fun c => c = '\r' || c = '\n'
  ((s.dropWhile p).reverse.dropWhile p).reverse

/-- Rust `str::split_once(':')`: the text before the first colon and the
text after it, or `none` when the string has no colon. -/
def splitOnceColon (s : List Char) : Option (List Char × List Char) :=
  if ':' ∈ s then some (s.takeWhile (· ≠ ':'), (s.dropWhile (· ≠ ':')).tail)
  else none

/-- Rust `str::to_lowercase`, restricted to ASCII letters (the header
names this development reasons about are ASCII). -/
def toLowerAscii (s : List Char) : List Char :=
  s.map (fun c => if 'A' ≤ c ∧ c ≤ 'Z' then Char.ofNat (c.toNat + 32) else c)

/-- Rust `str::split_whitespace().next()`: the first maximal run of
non-whitespace characters, or `none` when the string is all whitespace. -/
def splitWhitespaceFirst (s : List Char) : Option (List Char) :=
  let t := s.dropWhile isRustWhitespace
  if t = [] then none else some (t.takeWhile (fun c => ¬ isRustWhitespace c))

/-- Rust `u16::from_str`: an optional leading `+`, then one or more ASCII
digits; fails on overflow past 65535. -/
def parseU16 (s : List Char) : Option Nat :=
  let digits := match s with
    | '+' :: rest => rest
    | _ => s
  if digits ≠ [] ∧ digits.all Char.isDigit then
    let v := digits.foldl (fun acc c => acc * 10 + (c.toNat - '0'.toNat)) 0
    if v ≤ 65535 then some v else none
  else none

/-! ## C9: Host header splitting (`build_cgi_env_from_parts` and
`build_cgi_env` in `src/php/mod.rs`, lines 810-826 and 932-948).

The source computes `host_parts = host_str.split(':')`, sets
`SERVER_NAME = host_parts[0]`, and sets `SERVER_PORT = host_parts[1]`
when the split yields more than one field, `"80"` otherwise; when the
`Host` header is absent it uses `localhost` / `80`. -/

/-- The `(SERVER_NAME, SERVER_PORT)` pair the environment builder inserts,
mirroring `src/php/mod.rs` lines 811-826 (identical logic at 933-948). -/
def serverNamePort (host : Option (List Char)) : List Char × List Char :=
  match host with
  | some h =>
    let hostParts := rustSplit ':' h
    (hostParts.headI,
     if 1 < hostParts.length then (hostParts.get? 1).getD [] else "80".toList)
  | none => ("localhost".toList, "80".toList)

/-- Modelled from the spec's words, for comparison with the code: the spec
says SERVER_PORT is everything after the first colon of the Host header
("split on the first colon into name and port"). -/
def specServerPortAfterFirstColon (h : List Char) : List Char :=
  if ':' ∈ h then (h.dropWhile (· ≠ ':')).tail else "80".toList

theorem rustSplit_cons_self (sep : Char) (rest : List Char) :
    rustSplit sep (sep :: rest) = [] :: rustSplit sep rest := by
  simp [rustSplit]

theorem rustSplit_cons_ne (sep c : Char) (rest : List Char) (hc : c ≠ sep) :
    rustSplit sep (c :: rest) =
      (c :: (rustSplit sep rest).headI) :: (rustSplit sep rest).tail := by
  simp only [rustSplit, if_neg hc]
  cases hs : rustSplit sep rest with
  | nil => exact absurd hs (rustSplit_ne_nil sep rest)
  | cons g gs => simp [List.headI]

theorem rustSplit_headI (sep : Char) (s : List Char) :
    (rustSplit sep s).headI = s.takeWhile (· ≠ sep) := by
  induction s with
  | nil => rfl
  | cons c rest ih =>
    by_cases hc : c = sep
    · subst hc
      rw [rustSplit_cons_self]
      simp [List.takeWhile_cons]
    · rw [rustSplit_cons_ne sep c rest hc]
      show c :: (rustSplit sep rest).headI = _
      rw [ih, List.takeWhile_cons]
      simp [hc]

theorem rustSplit_length_gt_one_iff (sep : Char) (s : List Char) :
    1 < (rustSplit sep s).length ↔ sep ∈ s := by
  induction s with
  | nil => simp [rustSplit]
  | cons c rest ih =>
    have hlen : 0 < (rustSplit sep rest).length :=
      List.length_pos.mpr (rustSplit_ne_nil sep rest)
    by_cases hc : c = sep
    · subst hc
      rw [rustSplit_cons_self]
      simp only [List.length_cons, List.mem_cons, true_or, iff_true]
      omega
    · rw [rustSplit_cons_ne sep c rest hc]
      simp only [List.length_cons, List.length_tail, List.mem_cons]
      constructor
      · intro h
        right
        exact ih.mp (by omega)
      · intro h
        have hmem : sep ∈ rest := by
          rcases h with h | h
          · exact absurd h.symm hc
          · exact h
        have := ih.mpr hmem
        omega

theorem rustSplit_get_one (sep : Char) (s : List Char) (h : sep ∈ s) :
    (rustSplit sep s).get? 1 =
      some (((s.dropWhile (· ≠ sep)).tail).takeWhile (· ≠ sep)) := by
  induction s with
  | nil => simp at h
  | cons c rest ih =>
    by_cases hc : c = sep
    · subst hc
      rw [rustSplit_cons_self]
      have hd : (c :: rest).dropWhile (· ≠ c) = c :: rest := by
        simp [List.dropWhile_cons]
      rw [hd]
      simp only [List.tail_cons]
      show (rustSplit c rest).get? 0 = some (rest.takeWhile (· ≠ c))
      cases hs : rustSplit c rest with
      | nil => exact absurd hs (rustSplit_ne_nil c rest)
      | cons g gs =>
        have hh := rustSplit_headI c rest
        rw [hs] at hh
        simp only [List.headI] at hh
        simp [List.get?, hh]
    · have hmem : sep ∈ rest := by
        rcases List.mem_cons.mp h with h1 | h1
        · exact absurd h1.symm hc
        · exact h1
      rw [rustSplit_cons_ne sep c rest hc]
      have hd : (c :: rest).dropWhile (· ≠ sep) = rest.dropWhile (· ≠ sep) := by
        simp [List.dropWhile_cons, hc]
      rw [hd]
      have hrec := ih hmem
      cases hs : rustSplit sep rest with
      | nil => exact absurd hs (rustSplit_ne_nil sep rest)
      | cons g gs =>
        rw [hs] at hrec
        show ((c :: (g :: gs).headI) :: (g :: gs).tail).get? 1 = _
        simp only [List.tail_cons, List.get?]
        simpa [List.get?] using hrec

/-- C9 counterexample: for `Host: a:b:c` the code sets SERVER_PORT to the
field between the first and second colon (`b`), not to everything after
the first colon (`b:c`) as the claim states. -/
theorem c9_counterexample_host_two_colons :
    (serverNamePort (some ("a:b:c".toList))).2 = "b".toList
  ∧ specServerPortAfterFirstColon ("a:b:c".toList) = "b:c".toList
  ∧ (serverNamePort (some ("a:b:c".toList))).2
      ≠ specServerPortAfterFirstColon ("a:b:c".toList) := by
  refine ⟨by decide, by decide, by decide⟩

/-- C9 amended: SERVER_NAME is the portion of the Host header before the
first colon; SERVER_PORT is the field strictly between the first and the
second colon (not everything after the first colon), defaulting to "80"
when the header has no colon; an absent header gives localhost/80. -/
theorem c9_amended_host_split (h : List Char) :
    (serverNamePort (some h)).1 = h.takeWhile (· ≠ ':')
  ∧ (serverNamePort (some h)).2 =
      (if ':' ∈ h then ((h.dropWhile (· ≠ ':')).tail).takeWhile (· ≠ ':')
       else "80".toList)
  ∧ serverNamePort none = ("localhost".toList, "80".toList) := by
  refine ⟨?_, ?_, rfl⟩
  · simpa [serverNamePort] using rustSplit_headI ':' h
  · simp only [serverNamePort]
    by_cases hmem : ':' ∈ h
    · rw [if_pos hmem, if_pos ((rustSplit_length_gt_one_iff ':' h).mpr hmem),
        rustSplit_get_one ':' h hmem]
      rfl
    · rw [if_neg hmem,
        if_neg (fun hlt => hmem ((rustSplit_length_gt_one_iff ':' h).mp hlt))]

/-- C9 amended witness at Host `example.com:8080`. -/
theorem c9_amended_host_split_witness :
    (serverNamePort (some ("example.com:8080".toList))).1 = "example.com".toList
  ∧ (serverNamePort (some ("example.com:8080".toList))).2 = "8080".toList := by
  have h := c9_amended_host_split ("example.com:8080".toList)
  refine ⟨?_, ?_⟩
  · rw [h.1]; decide
  · rw [h.2.1]; decide

/-! ## C1: worker protocol wire format and framing.

`src/php_worker/protocol.rs` derives serde on `PhpRequest`/`PhpResponse`
and the messages travel as `bincode::serialize` output (bincode v1 legacy
format: little-endian fixed-width integers, `u32` enum variant tags,
`u64` length prefixes on strings/vectors/maps, trailing bytes tolerated
by `bincode::deserialize`).  `handle_connection`
(`src/php_worker/server.rs` lines 97-116) receives a frame with a single
`read` into a fixed `[0u8; 65536]` buffer — there is no length prefix at
the framing layer — and `send_response` (lines 144-153) writes the bare
`bincode` bytes. -/

/-- Little-endian encoding of `n` into exactly `k` bytes. -/
def toLE (n : Nat) : Nat → List Nat
  | 0 => []
  | k + 1 => (n % 256) :: toLE (n / 256) k

/-- Little-endian value of a byte list. -/
def fromLE : List Nat → Nat
  | [] => 0
  | b :: bs => b + 256 * fromLE bs

theorem toLE_length (n k : Nat) : (toLE n k).length = k := by
  induction k generalizing n with
  | zero => rfl
  | succ k ih => simp [toLE, ih]

theorem fromLE_toLE (n k : Nat) (h : n < 256 ^ k) : fromLE (toLE n k) = n := by
  induction k generalizing n with
  | zero =>
    interval_cases n
    rfl
  | succ k ih =>
    have hdiv : n / 256 < 256 ^ k := by
      rw [Nat.div_lt_iff_lt_mul (by norm_num)]
      calc n < 256 ^ (k + 1) := h
        _ = 256 ^ k * 256 := by ring
    simp only [toLE, fromLE, ih (n / 256) hdiv]
    omega

def u64le (n : Nat) : List Nat := toLE n 8

def u32le (n : Nat) : List Nat := toLE n 4

namespace Protocol

/-- `RequestType` from `src/php_worker/protocol.rs`. -/
inductive RequestType where
  | execute
  | healthCheck
  | status
deriving DecidableEq, Repr

/-- The bincode variant tag (declaration order) of a `RequestType`. -/
def RequestType.tag : RequestType → Nat
  | .execute => 0
  | .healthCheck => 1
  | .status => 2

/-- `PhpRequest` from `src/php_worker/protocol.rs` (strings and paths as
UTF-8 byte lists, maps as association lists in iteration order). -/
structure PhpRequest where
  request_type : RequestType
  script_path : List Nat
  method : List Nat
  uri : List Nat
  headers : List (List Nat × List Nat)
  body : List Nat
  query_params : List (List Nat × List Nat)
  server_vars : List (List Nat × List Nat)
  document_root : List Nat
  remote_addr : List Nat
  timeout_secs : Nat
deriving DecidableEq, Repr

/-- `PhpResponse` from `src/php_worker/protocol.rs`. -/
structure PhpResponse where
  success : Bool
  status_code : Nat
  headers : List (List Nat × List Nat)
  body : List Nat
  error : Option (List Nat)
  stderr : List Nat
  execution_time_ms : Nat
  queued : Bool
deriving DecidableEq, Repr

/-- bincode encoding of a length-prefixed byte sequence (String / Vec<u8> /
PathBuf payload). -/
def encBytes (bs : List Nat) : List Nat := u64le bs.length ++ bs

/-- bincode encoding of a map as entry count followed by the entries. -/
def encMap (m : List (List Nat × List Nat)) : List Nat :=
  u64le m.length ++ (m.map (fun p => encBytes p.1 ++ encBytes p.2)).flatten

/-- bincode encoding of a whole `PhpRequest`, field by field in
declaration order. -/
def encodeRequest (r : PhpRequest) : List Nat :=
  u32le r.request_type.tag ++ encBytes r.script_path ++ encBytes r.method
    ++ encBytes r.uri ++ encMap r.headers ++ encBytes r.body
    ++ encMap r.query_params ++ encMap r.server_vars
    ++ encBytes r.document_root ++ encBytes r.remote_addr
    ++ u32le r.timeout_secs

/-- Consume exactly `n` bytes of input, failing when fewer remain. -/
def readN (n : Nat) (s : List Nat) : Option (List Nat × List Nat) :=
  if n ≤ s.length then some (s.take n, s.drop n) else none

def readU64 (s : List Nat) : Option (Nat × List Nat) :=
  (readN 8 s).map (fun p => (fromLE p.1, p.2))

def readU32 (s : List Nat) : Option (Nat × List Nat) :=
  (readN 4 s).map (fun p => (fromLE p.1, p.2))

def decBytes (s : List Nat) : Option (List Nat × List Nat) :=
  match readU64 s with
  | none => none
  | some (n, s1) => readN n s1

def decEntries : Nat → List Nat → Option (List (List Nat × List Nat) × List Nat)
  | 0, s => some ([], s)
  | k + 1, s =>
    match decBytes s with
    | none => none
    | some (key, s1) =>
      match decBytes s1 with
      | none => none
      | some (val, s2) =>
        match decEntries k s2 with
        | none => none
        | some (es, s3) => some ((key, val) :: es, s3)

def decMap (s : List Nat) : Option (List (List Nat × List Nat) × List Nat) :=
  match readU64 s with
  | none => none
  | some (n, s1) => decEntries n s1

def decTag (n : Nat) : Option RequestType :=
  if n = 0 then some .execute
  else if n = 1 then some .healthCheck
  else if n = 2 then some .status
  else none

/-- bincode decoding of a `PhpRequest`; trailing bytes are tolerated as by
`bincode::deserialize`. -/
def decodeRequest (s : List Nat) : Option PhpRequest := do
  let (tag, s) ← readU32 s
  let rt ← decTag tag
  let (sp, s) ← decBytes s
  let (me, s) ← decBytes s
  let (ur, s) ← decBytes s
  let (he, s) ← decMap s
  let (bo, s) ← decBytes s
  let (qp, s) ← decMap s
  let (sv, s) ← decMap s
  let (dr, s) ← decBytes s
  let (ra, s) ← decBytes s
  let (ts, _) ← readU32 s
  pure { request_type := rt, script_path := sp, method := me, uri := ur,
         headers := he, body := bo, query_params := qp, server_vars := sv,
         document_root := dr, remote_addr := ra, timeout_secs := ts }

/-- The framing of `handle_connection` (`src/php_worker/server.rs` lines
102-103): one `read` into a fixed 65536-byte buffer; in the best case the
receiver obtains exactly the first 65536 bytes of the sent frame. -/
def recvFrame (sent : List Nat) : List Nat := sent.take 65536

theorem readN_exact (a b : List Nat) : readN a.length (a ++ b) = some (a, b) := by
  simp [readN, List.take_left, List.drop_left]

theorem readU64_enc (n : Nat) (b : List Nat) (h : n < 256 ^ 8) :
    readU64 (u64le n ++ b) = some (n, b) := by
  have hl : (u64le n).length = 8 := toLE_length n 8
  unfold readU64
  rw [← hl, readN_exact]
  simp [u64le, fromLE_toLE n 8 h]

theorem readU32_enc (n : Nat) (b : List Nat) (h : n < 256 ^ 4) :
    readU32 (u32le n ++ b) = some (n, b) := by
  have hl : (u32le n).length = 4 := toLE_length n 4
  unfold readU32
  rw [← hl, readN_exact]
  simp [u32le, fromLE_toLE n 4 h]

theorem decBytes_enc (bs b : List Nat) (h : bs.length < 256 ^ 8) :
    decBytes (encBytes bs ++ b) = some (bs, b) := by
  unfold decBytes encBytes
  rw [List.append_assoc, readU64_enc bs.length (bs ++ b) h]
  show readN bs.length (bs ++ b) = some (bs, b)
  exact readN_exact bs b

theorem decBytes_short (n : Nat) (rest : List Nat) (hn : n < 256 ^ 8)
    (h : rest.length < n) : decBytes (u64le n ++ rest) = none := by
  unfold decBytes
  rw [readU64_enc n rest hn]
  simp [readN]
  omega

theorem decMap_enc_nil (b : List Nat) : decMap (encMap [] ++ b) = some ([], b) := by
  unfold decMap encMap
  simp only [List.length_nil, List.map_nil, List.flatten_nil, List.append_nil]
  rw [readU64_enc 0 b (by norm_num)]
  rfl

/-- The concrete failing input for C1: an Execute request whose body is
70000 bytes, so its 70080-byte bincode frame exceeds the receiver's fixed
65536-byte buffer. -/
def c1FailingRequest : PhpRequest :=
  { request_type := .execute, script_path := [], method := [], uri := [],
    headers := [], body := List.replicate 70000 0, query_params := [],
    server_vars := [], document_root := [], remote_addr := [],
    timeout_secs := 30 }

theorem readU32_enc0 (b : List Nat) : readU32 (u32le 0 ++ b) = some (0, b) :=
  readU32_enc 0 b (by norm_num)

theorem readU32_enc30 (b : List Nat) : readU32 (u32le 30 ++ b) = some (30, b) :=
  readU32_enc 30 b (by norm_num)

theorem readU32_enc30_nil : readU32 (u32le 30) = some (30, []) := by
  simpa using readU32_enc30 []

theorem decBytes_enc_nil (b : List Nat) : decBytes (encBytes [] ++ b) = some ([], b) :=
  decBytes_enc [] b (by norm_num)

theorem optBind_some {a : Type} {b : Type} (x : a) (f : a → Option b) :
    (some x >>= f) = f x := rfl

theorem optBind_none {a : Type} {b : Type} (f : a → Option b) :
    ((none : Option a) >>= f) = none := rfl

theorem decTag_zero : decTag 0 = some RequestType.execute := rfl

theorem readU32_enc_nil (n : Nat) (h : n < 256 ^ 4) :
    readU32 (u32le n) = some (n, []) := by
  simpa using readU32_enc n [] h

theorem decodeRequest_encode_simple (bs : List Nat) (ts : Nat)
    (hb : bs.length < 256 ^ 8) (ht : ts < 256 ^ 4) :
    decodeRequest (encodeRequest
      { request_type := .execute, script_path := [], method := [], uri := [],
        headers := [], body := bs, query_params := [], server_vars := [],
        document_root := [], remote_addr := [], timeout_secs := ts })
      = some
      { request_type := .execute, script_path := [], method := [], uri := [],
        headers := [], body := bs, query_params := [], server_vars := [],
        document_root := [], remote_addr := [], timeout_secs := ts } := by
  have hassoc : encodeRequest
      { request_type := .execute, script_path := [], method := [], uri := [],
        headers := [], body := bs, query_params := [], server_vars := [],
        document_root := [], remote_addr := [], timeout_secs := ts }
      = u32le 0 ++ (encBytes [] ++ (encBytes [] ++ (encBytes [] ++ (encMap [] ++
        (encBytes bs ++ (encMap [] ++ (encMap [] ++
        (encBytes [] ++ (encBytes [] ++ u32le ts))))))))) := by
    simp only [encodeRequest, RequestType.tag, List.append_assoc]
  rw [hassoc]
  simp only [decodeRequest]
  rw [readU32_enc 0 _ (by norm_num)]
  simp only [optBind_some, decTag_zero]
  rw [decBytes_enc_nil]
  simp only [optBind_some]
  rw [decBytes_enc_nil]
  simp only [optBind_some]
  rw [decBytes_enc_nil]
  simp only [optBind_some]
  rw [decMap_enc_nil]
  simp only [optBind_some]
  rw [decBytes_enc bs _ hb]
  simp only [optBind_some]
  rw [decMap_enc_nil]
  simp only [optBind_some]
  rw [decMap_enc_nil]
  simp only [optBind_some]
  rw [decBytes_enc_nil]
  simp only [optBind_some]
  rw [decBytes_enc_nil]
  simp only [optBind_some]
  rw [readU32_enc_nil ts ht]
  simp only [optBind_some]
  rfl

theorem c1_codec_roundtrip_at_failing_input :
    decodeRequest (encodeRequest c1FailingRequest) = some c1FailingRequest :=
  decodeRequest_encode_simple (List.replicate 70000 0) 30
    (by rw [List.length_replicate]; norm_num) (by norm_num)

theorem encode_c1_length : (encodeRequest c1FailingRequest).length = 70080 := by
  simp only [encodeRequest, c1FailingRequest, encBytes, encMap, u64le, u32le,
    toLE_length, List.length_append, List.length_replicate, RequestType.tag,
    List.map_nil, List.flatten_nil, List.append_nil, List.length_nil]

theorem c1_frame_truncated :
    recvFrame (encodeRequest c1FailingRequest) ≠ encodeRequest c1FailingRequest := by
  have h2 : (recvFrame (encodeRequest c1FailingRequest)).length = 65536 := by
    simp only [recvFrame, List.length_take, encode_c1_length]
    omega
  intro h
  rw [h, encode_c1_length] at h2
  exact absurd h2 (by norm_num)

theorem encode_c1_split :
    encodeRequest c1FailingRequest =
      (u32le 0 ++ encBytes [] ++ encBytes [] ++ encBytes [] ++ encMap []
        ++ u64le 70000)
      ++ (List.replicate 70000 0
      ++ (encMap [] ++ encMap [] ++ encBytes [] ++ encBytes [] ++ u32le 30)) := by
  have hb : encBytes (List.replicate 70000 0) =
      u64le 70000 ++ List.replicate 70000 0 := by
    simp only [encBytes, List.length_replicate]
  simp only [encodeRequest, c1FailingRequest, RequestType.tag, hb,
    List.append_assoc]

theorem c1_prefix_length :
    (u32le 0 ++ encBytes [] ++ encBytes [] ++ encBytes [] ++ encMap []
      ++ u64le (70000 : Nat)).length = 44 := by
  simp only [encBytes, encMap, u64le, u32le, toLE_length, List.length_append,
    List.map_nil, List.flatten_nil, List.append_nil, List.length_nil]

theorem take_65536_split (p q r : List Nat) (hp : p.length = 44)
    (hq : q.length = 70000) :
    (p ++ (q ++ r)).take 65536 = p ++ q.take 65492 := by
  rw [List.take_append_eq_append_take, hp,
    List.take_of_length_le (by rw [hp]; norm_num)]
  congr 1
  have h44 : (65536 : Nat) - 44 = 65492 := by norm_num
  rw [h44, List.take_append_eq_append_take, hq]
  have hz : (65492 : Nat) - 70000 = 0 := by norm_num
  rw [hz, List.take_zero, List.append_nil]

theorem c1_trunc_shape :
    recvFrame (encodeRequest c1FailingRequest) =
      (u32le 0 ++ encBytes [] ++ encBytes [] ++ encBytes [] ++ encMap []
        ++ u64le 70000) ++ List.replicate 65492 0 := by
  have htake : (List.replicate 70000 (0 : Nat)).take 65492 =
      List.replicate 65492 0 := by
    rw [List.take_replicate]
    congr 1
  show (encodeRequest c1FailingRequest).take 65536 = _
  rw [encode_c1_split,
    take_65536_split _ _ _ c1_prefix_length (List.length_replicate 70000 0),
    htake]

theorem decodeRequest_short_body (n : Nat) (rest : List Nat)
    (hn : n < 256 ^ 8) (h : rest.length < n) :
    decodeRequest (u32le 0 ++ (encBytes [] ++ (encBytes [] ++ (encBytes [] ++
      (encMap [] ++ (u64le n ++ rest)))))) = none := by
  simp only [decodeRequest]
  rw [readU32_enc 0 _ (by norm_num)]
  simp only [optBind_some, decTag_zero]
  rw [decBytes_enc_nil]
  simp only [optBind_some]
  rw [decBytes_enc_nil]
  simp only [optBind_some]
  rw [decBytes_enc_nil]
  simp only [optBind_some]
  rw [decMap_enc_nil]
  simp only [optBind_some]
  rw [decBytes_short n rest hn h]
  simp only [optBind_none]

theorem c1_decode_truncated_fails :
    decodeRequest (recvFrame (encodeRequest c1FailingRequest)) = none := by
  rw [c1_trunc_shape]
  simp only [List.append_assoc]
  exact decodeRequest_short_body 70000 (List.replicate 65492 0) (by norm_num)
    (by rw [List.length_replicate]; norm_num)

/-- C1: the serialization codec itself round-trips the failing request, but
the socket framing does not: `handle_connection` reads one message with a
single `read` into a fixed 65536-byte buffer and the 70080-byte frame of a
request with a 70000-byte body is truncated, after which decoding fails —
so encoding, transmitting and decoding does not reproduce the message,
contrary to the claim. -/
theorem c1_roundtrip_broken_by_fixed_buffer :
    decodeRequest (encodeRequest c1FailingRequest) = some c1FailingRequest
  ∧ recvFrame (encodeRequest c1FailingRequest) ≠ encodeRequest c1FailingRequest
  ∧ decodeRequest (recvFrame (encodeRequest c1FailingRequest)) = none :=
  ⟨c1_codec_roundtrip_at_failing_input, c1_frame_truncated,
   c1_decode_truncated_fails⟩

end Protocol

/-- UTF-8 bytes of an ASCII string. -/
def asciiBytes (s : String) : List Nat := s.toList.map Char.toNat

namespace Protocol

/-- `PhpRequest::execute` from `src/php_worker/protocol.rs` lines 48-63. -/
def PhpRequest.executeReq (script_path : List Nat) : PhpRequest :=
  { request_type := .execute, script_path,
    method := asciiBytes "GET", uri := asciiBytes "/", headers := [],
    body := [], query_params := [], server_vars := [],
    document_root := asciiBytes "/var/www",
    remote_addr := asciiBytes "127.0.0.1", timeout_secs := 30 }

/-- `PhpResponse::ok` from `src/php_worker/protocol.rs` lines 105-117. -/
def PhpResponse.okResp (body stderr : List Nat) : PhpResponse :=
  { success := true, status_code := 200, headers := [], body,
    error := none, stderr, execution_time_ms := 0, queued := false }

/-- `PhpResponse::error` from `src/php_worker/protocol.rs` lines 119-131. -/
def PhpResponse.errorResp (message : List Nat) : PhpResponse :=
  { success := false, status_code := 500, headers := [], body := [],
    error := some message, stderr := message, execution_time_ms := 0,
    queued := false }

/-- `PhpResponse::queued` from `src/php_worker/protocol.rs` lines 133-145. -/
def PhpResponse.queuedResp : PhpResponse :=
  { success := true, status_code := 202, headers := [], body := [],
    error := none, stderr := [], execution_time_ms := 0, queued := true }

end Protocol

/-! ## C10: worker-side pool dispatch (`WorkerPool::execute`,
`src/php_worker/pool.rs` lines 97-116). -/

namespace WorkerPool

/-- The pool state `WorkerPool::execute` reads and writes: the busy flag of
each spawned worker and the pending `request_queue`. -/
structure WorkerPoolState where
  workers : List Bool
  request_queue : List Protocol.PhpRequest

/-- `WorkerPool::execute` (`src/php_worker/pool.rs` lines 97-116).  When an
idle worker exists the code marks it busy, runs `run_php` (whose result the
model takes as the oracle argument `run_result`), and marks it idle again,
so the state is unchanged at return; otherwise the request is queued when
fewer than 100 requests are pending, and rejected when not. -/
def execute (run_result : Protocol.PhpResponse) (s : WorkerPoolState)
    (request : Protocol.PhpRequest) : WorkerPoolState × Protocol.PhpResponse :=
  if s.workers.any (fun busy => !busy) then
    (s, run_result)
  else if s.request_queue.length < 100 then
    ({ s with request_queue := s.request_queue ++ [request] },
     Protocol.PhpResponse.queuedResp)
  else
    (s, Protocol.PhpResponse.errorResp
          (asciiBytes "Worker pool exhausted, request dropped"))

/-- Pool states reachable from any freshly spawned pool (whose pending
queue is empty) by repeated `execute` calls. -/
inductive Reachable : WorkerPoolState → Prop
  | init (workers : List Bool) : Reachable ⟨workers, []⟩
  | step (s : WorkerPoolState) (run_result : Protocol.PhpResponse)
      (request : Protocol.PhpRequest) :
      Reachable s → Reachable (execute run_result s request).1

/-- C10: with no idle worker and fewer than 100 pending requests, `execute`
enqueues the request and answers with the queued response (status 202,
queued flag set, success flag set); with the queue full it answers with the
pool-exhausted error and leaves the queue untouched; and on every reachable
pool state the queue holds at most 100 requests. -/
theorem c10_queue_capacity_and_rejection :
    (∀ (s : WorkerPoolState) (r : Protocol.PhpResponse)
       (q : Protocol.PhpRequest),
       s.workers.any (fun busy => !busy) = false →
       s.request_queue.length < 100 →
       execute r s q =
         ({ s with request_queue := s.request_queue ++ [q] },
          Protocol.PhpResponse.queuedResp)
       ∧ Protocol.PhpResponse.queuedResp.status_code = 202
       ∧ Protocol.PhpResponse.queuedResp.queued = true
       ∧ Protocol.PhpResponse.queuedResp.success = true)
  ∧ (∀ (s : WorkerPoolState) (r : Protocol.PhpResponse)
       (q : Protocol.PhpRequest),
       s.workers.any (fun busy => !busy) = false →
       ¬ s.request_queue.length < 100 →
       execute r s q =
         (s, Protocol.PhpResponse.errorResp
               (asciiBytes "Worker pool exhausted, request dropped")))
  ∧ (∀ s : WorkerPoolState, Reachable s → s.request_queue.length ≤ 100) := by
  refine ⟨?_, ?_, ?_⟩
  · intro s r q h1 h2
    refine ⟨?_, rfl, rfl, rfl⟩
    simp [execute, h1, h2]
  · intro s r q h1 h2
    simp [execute, h1, h2]
  · intro s h
    induction h with
    | init workers => simp
    | step s r q hs ih =>
      by_cases h1 : s.workers.any (fun busy => !busy)
      · simpa [execute, h1] using ih
      · by_cases h2 : s.request_queue.length < 100
        · simp [execute, h1, h2]
          omega
        · simpa [execute, h1, h2] using ih

/-- C10 witness: a pool whose single worker is busy and whose queue is
empty queues the request with status 202, and the empty-queue state is
reachable with queue length within the bound. -/
theorem c10_queue_capacity_and_rejection_witness :
    execute (Protocol.PhpResponse.okResp [] [])
        ⟨[true], []⟩ (Protocol.PhpRequest.executeReq []) =
      (⟨[true], [Protocol.PhpRequest.executeReq []]⟩,
       Protocol.PhpResponse.queuedResp)
  ∧ (⟨[true], []⟩ : WorkerPoolState).request_queue.length ≤ 100 :=
  ⟨(c10_queue_capacity_and_rejection.1 ⟨[true], []⟩
      (Protocol.PhpResponse.okResp [] []) (Protocol.PhpRequest.executeReq [])
      (by decide) (by norm_num)).1,
   c10_queue_capacity_and_rejection.2.2 ⟨[true], []⟩ (Reachable.init [true])⟩

end WorkerPool

/-! ## The host-side pool (`PhpPool`, `src/php/mod.rs`). -/

namespace Php

/-- `PhpMode` from `src/config/mod.rs`, matched on in `src/php/mod.rs`. -/
inductive PhpMode where
  | cgi
  | socket
  | embed
deriving DecidableEq, Repr

/-- Typed per-call errors of the executor (§7 taxonomy), as produced by the
`anyhow!` sites of `do_execute_cgi`. -/
inductive PhpError where
  | spawn_error (msg : List Char)
  | timeout_error (secs : Nat)
  | script_failure (stderr : List Char)
deriving DecidableEq

/-! ### C7: result classification of the spawn-per-request executor
(`do_execute_cgi`, `src/php/mod.rs` lines 482-518; identical logic in
`do_execute_with_body`, lines 396-432). -/

/-- What the spawned interpreter process did, as observed by
`do_execute_cgi`: the spawn failed, the deadline elapsed, or the process
completed with an exit status and captured stdout/stderr. -/
inductive CgiOutcome where
  | spawn_failure (msg : List Char)
  | timed_out
  | completed (exit_success : Bool) (stdout stderr : List Char)

/-- The tail of `do_execute_cgi` (`src/php/mod.rs` lines 482-518): spawn
errors and timeouts are returned as typed errors; on completion, stderr is
logged via `warn!` when its trimmed text is non-empty (second component),
and a non-zero exit with empty stdout is a script failure carrying stderr,
anything else a success carrying stdout. -/
def do_execute_cgi_result (max_execution_time : Nat) :
    CgiOutcome → Except PhpError (List Char) × Option (List Char)
  | .spawn_failure m => (.error (.spawn_error m), none)
  | .timed_out => (.error (.timeout_error max_execution_time), none)
  | .completed exit_success stdout stderr =>
      let logged := if stderr ≠ [] ∧ rustTrim stderr ≠ [] then some stderr else none
      (if exit_success = false ∧ stdout = []
       then .error (.script_failure stderr)
       else .ok stdout,
       logged)

/-- C7: a zero exit yields success with the output; a non-zero exit with
non-empty output still yields success, and the diagnostic stderr is logged
rather than discarded; a non-zero exit with empty output is a script
failure carrying the diagnostic text; a spawn failure is a spawn error. -/
theorem c7_spawn_executor_classification :
    (∀ (met : Nat) (out err : List Char),
       (do_execute_cgi_result met (.completed true out err)).1 = .ok out)
  ∧ (∀ (met : Nat) (out err : List Char), out ≠ [] →
       (do_execute_cgi_result met (.completed false out err)).1 = .ok out)
  ∧ (∀ (met : Nat) (es : Bool) (out err : List Char), rustTrim err ≠ [] →
       (do_execute_cgi_result met (.completed es out err)).2 = some err)
  ∧ (∀ (met : Nat) (err : List Char),
       (do_execute_cgi_result met (.completed false [] err)).1 =
         .error (.script_failure err))
  ∧ (∀ (met : Nat) (m : List Char),
       (do_execute_cgi_result met (.spawn_failure m)).1 =
         .error (.spawn_error m)) := by
  refine ⟨?_, ?_, ?_, ?_, ?_⟩
  · intro met out err
    simp [do_execute_cgi_result]
  · intro met out err h
    simp [do_execute_cgi_result, h]
  · intro met es out err h
    have herr : err ≠ [] := by
      intro hnil
      rw [hnil] at h
      exact h rfl
    simp [do_execute_cgi_result, h, herr]
  · intro met err
    simp [do_execute_cgi_result]
  · intro met m
    simp [do_execute_cgi_result]

/-- C7 witness at a concrete non-zero exit with output `x` and stderr
`warning`. -/
theorem c7_spawn_executor_classification_witness :
    (do_execute_cgi_result 30
      (.completed false ("x".toList) ("warning".toList))).1 = .ok ("x".toList)
  ∧ (do_execute_cgi_result 30
      (.completed false ("x".toList) ("warning".toList))).2 =
        some ("warning".toList) :=
  ⟨c7_spawn_executor_classification.2.1 30 ("x".toList) ("warning".toList)
     (by decide),
   c7_spawn_executor_classification.2.2.1 30 false ("x".toList)
     ("warning".toList) (by decide)⟩

/-! ### C8: timeout deadlines per strategy.

`do_execute_cgi` wraps the child wait in
`tokio::time::timeout(Duration::from_secs(self.config.max_execution_time), ..)`
(`src/php/mod.rs` lines 495-502); the embedded strategy instead waits on
the reply channel with `recv_timeout(Duration::from_secs(300))`
(`src/php/sapi.rs` lines 839-841) — a fixed 300-second deadline unrelated
to the configured maximum execution time. -/

/-- The deadline, in seconds, of the timeout wrapper in `do_execute_cgi`
(`src/php/mod.rs` line 497): the configured maximum execution time. -/
def cgi_timeout_secs (max_execution_time : Nat) : Nat := max_execution_time

/-- The deadline, in seconds, of the reply wait in
`PhpSapi::execute_script` (`src/php/sapi.rs` line 840): hardcoded 300. -/
def embed_recv_timeout_secs : Nat := 300

/-- The `tokio::time::timeout` wrapper of `do_execute_cgi`: the wait
completes with the process output when it finishes within the configured
deadline and is a timeout error otherwise. -/
def do_execute_cgi_wait (max_execution_time elapsed : Nat)
    (output : List Char) : Except PhpError (List Char) :=
  if cgi_timeout_secs max_execution_time < elapsed
  then .error (.timeout_error max_execution_time)
  else .ok output

/-- The `recv_timeout` wait of `PhpSapi::execute_script`: the reply is
returned when it arrives within the fixed 300-second deadline, and the
timeout error string is surfaced otherwise. -/
def execute_script_recv (elapsed : Nat) (reply : List Nat) :
    Except (List Char) (List Nat) :=
  if embed_recv_timeout_secs < elapsed
  then .error ("Timeout waiting for PHP response".toList)
  else .ok reply

/-- C8 counterexample: with a configured maximum execution time of 30
seconds, an embedded-strategy call whose execution takes 40 seconds has
exceeded the configured maximum yet is answered with the reply rather than
a Timeout error, because the embedded wait uses a fixed 300-second
deadline instead of the configured one. -/
theorem c8_counterexample_embed_deadline :
    cgi_timeout_secs 30 = 30
  ∧ embed_recv_timeout_secs ≠ 30
  ∧ 30 < 40
  ∧ execute_script_recv 40 [] = .ok [] := by
  refine ⟨rfl, by decide, by decide, rfl⟩

/-- C8 amended: every strategy wraps the execution in a timeout and
surfaces a timeout error when its own deadline is exceeded, but the
deadlines differ: the spawn/CGI path uses the configured maximum execution
time while the embedded path uses a fixed 300-second reply deadline. -/
theorem c8_amended_timeout_deadlines :
    (∀ (met elapsed : Nat) (out : List Char), met < elapsed →
       do_execute_cgi_wait met elapsed out = .error (.timeout_error met))
  ∧ (∀ (elapsed : Nat) (reply : List Nat), 300 < elapsed →
       execute_script_recv elapsed reply =
         .error ("Timeout waiting for PHP response".toList))
  ∧ cgi_timeout_secs = id
  ∧ embed_recv_timeout_secs = 300 := by
  refine ⟨?_, ?_, rfl, rfl⟩
  · intro met elapsed out h
    simp [do_execute_cgi_wait, cgi_timeout_secs, h]
  · intro elapsed reply h
    simp [execute_script_recv, embed_recv_timeout_secs, h]

/-- C8 amended witness: a 40-second run against a 30-second configured
deadline times out on the CGI path, and a 301-second reply wait times out
on the embedded path. -/
theorem c8_amended_timeout_deadlines_witness :
    do_execute_cgi_wait 30 40 [] = .error (.timeout_error 30)
  ∧ execute_script_recv 301 [] =
      .error ("Timeout waiting for PHP response".toList) :=
  ⟨c8_amended_timeout_deadlines.1 30 40 [] (by decide),
   c8_amended_timeout_deadlines.2.1 301 [] (by decide)⟩

/-! ### C2: what a Socket-mode `execute_cgi` call actually does.

`execute_cgi` (`src/php/mod.rs` lines 291-317) accepts both `Cgi` and
`Socket` modes and always delegates to `do_execute_cgi` (lines 436-519),
which builds a command around the local PHP binary, spawns a fresh process
per call, writes the body to its stdin (or closes stdin when empty) and
waits under the timeout.  No code path connects to the configured socket;
the socket path is only checked for existence once at startup
(`PhpPool::start`, lines 172-188). -/

/-- The externally visible effects a call can perform, in order. -/
inductive ExecEffect where
  | acquire_permit
  | spawn_php (binary : List Char)
  | write_stdin_body
  | close_stdin
  | wait_with_timeout (secs : Nat)
  | connect_unix (path : List Char)
  | write_request
  | read_response
  | disconnect
deriving DecidableEq, Repr

/-- Effect trace of `do_execute_cgi` (`src/php/mod.rs` lines 436-519):
spawn the PHP binary, feed or close stdin, wait under the configured
deadline. -/
def do_execute_cgi_effects (php_binary : List Char) (max_execution_time : Nat)
    (body_nonempty : Bool) : List ExecEffect :=
  [.spawn_php php_binary,
   if body_nonempty then .write_stdin_body else .close_stdin,
   .wait_with_timeout max_execution_time]

/-- Effect trace of `execute_cgi` (`src/php/mod.rs` lines 291-317):
availability check, mode check admitting both `Cgi` and `Socket`, then a
permit acquisition followed by the `do_execute_cgi` effects. -/
def execute_cgi_effects (mode : PhpMode) (available : Bool)
    (php_binary : List Char) (max_execution_time : Nat)
    (body_nonempty : Bool) : Except (List Char) (List ExecEffect) :=
  if available = false then .error ("PHP support is not available".toList)
  else if mode ≠ .cgi ∧ mode ≠ .socket then
    .error ("PHP pool not in CGI/Socket mode".toList)
  else .ok (.acquire_permit ::
    do_execute_cgi_effects php_binary max_execution_time body_nonempty)

/-- Socket-layer effects; a persistent-worker exchange would consist of
these. -/
def is_socket_io : ExecEffect → Bool
  | .connect_unix _ => true
  | .write_request => true
  | .read_response => true
  | .disconnect => true
  | _ => false

/-- C2: a Socket-mode `execute_cgi` call spawns a fresh PHP process and
performs no socket I/O whatsoever — it never connects to the configured
socket, never writes a Request message and never reads a Response message,
so the script is not executed by the out-of-process worker. -/
theorem c2_socket_mode_spawns_instead_of_connecting :
    execute_cgi_effects .socket true ("php-cgi".toList) 30 true =
      .ok [.acquire_permit, .spawn_php ("php-cgi".toList), .write_stdin_body,
           .wait_with_timeout 30]
  ∧ ([.acquire_permit, .spawn_php ("php-cgi".toList), .write_stdin_body,
      .wait_with_timeout 30].all (fun e => !(is_socket_io e))) = true
  ∧ ExecEffect.spawn_php ("php-cgi".toList) ∈
      [ExecEffect.acquire_permit, .spawn_php ("php-cgi".toList),
       .write_stdin_body, .wait_with_timeout 30] := by
  refine ⟨rfl, by decide, by decide⟩

/-! ### C3: the concurrency permit.

`PhpPool::new` sizes one counting semaphore to the configured worker count
(`src/php/mod.rs` line 113).  Every execution path — `execute_with_body`
(lines 258-280), `execute_cgi` (lines 291-317), `execute_simple`
(lines 331-347) and `execute_embed` (lines 634-641) — first awaits
`semaphore.acquire()`, blocking while no permit is free, and the permit is
released when `_permit` is dropped at the end of the call. -/

/-- The semaphore state: free permits plus the `active_workers` gauge
incremented around each dispatched execution. -/
structure PoolState where
  permits : Nat
  active_workers : Nat
deriving DecidableEq, Repr

/-- One transition of the permit discipline: an execution path acquires a
free permit and enters (blocking is modelled by the `0 < permits` guard —
no transition exists for a caller without a free permit), or a finished
execution leaves and releases its permit. -/
inductive PoolStep : PoolState → PoolState → Prop
  | acquire (s : PoolState) : 0 < s.permits →
      PoolStep s ⟨s.permits - 1, s.active_workers + 1⟩
  | release (s : PoolState) : 0 < s.active_workers →
      PoolStep s ⟨s.permits + 1, s.active_workers - 1⟩

/-- States reachable from a pool freshly created with
`Semaphore::new(config.workers)` and no in-flight execution. -/
inductive PoolReach (workers : Nat) : PoolState → Prop
  | init : PoolReach workers ⟨workers, 0⟩
  | step {s t : PoolState} : PoolReach workers s → PoolStep s t →
      PoolReach workers t

theorem pool_permit_conservation {workers : Nat} {s : PoolState}
    (h : PoolReach workers s) : s.permits + s.active_workers = workers := by
  induction h with
  | init => rfl
  | step hs hst ih =>
    cases hst with
    | acquire h1 => simp only []; omega
    | release h1 => simp only []; omega

/-- C3: in every state reachable under the permit discipline of the
configured worker count, the number of in-flight executions never exceeds
the worker count. -/
theorem c3_inflight_bounded_by_workers (workers : Nat) (s : PoolState)
    (h : PoolReach workers s) : s.active_workers ≤ workers := by
  have := pool_permit_conservation h
  omega

/-- C3 witness: with two permits, after one acquisition the state ⟨1, 1⟩ is
reachable and its single in-flight execution is within the bound. -/
theorem c3_inflight_bounded_by_workers_witness :
    PoolReach 2 ⟨1, 1⟩ ∧ (⟨1, 1⟩ : PoolState).active_workers ≤ 2 :=
  have hr : PoolReach 2 ⟨1, 1⟩ :=
    PoolReach.step PoolReach.init (PoolStep.acquire ⟨2, 0⟩ (by norm_num))
  ⟨hr, c3_inflight_bounded_by_workers 2 ⟨1, 1⟩ hr⟩

end Php

/-! ## The embedded SAPI capture state and hooks (`src/php/sapi.rs`). -/

namespace Sapi

/-- Rust `as u16` applied to a positive `c_int` value. -/
def as_u16 (n : Int) : Nat := (n % 65536).toNat

/-- `EmbedCapture` (`src/php/sapi.rs` lines 101-108): the process-wide
scratch record filled by the hooks during one embedded execution. -/
structure EmbedCapture where
  body : List Nat
  headers : List (List Char × List Char)
  status : Nat
  last_error : Option (List Char)
deriving DecidableEq, Repr

/-- The capture state after the reset block at the start of
`execute_script_on_thread` (`src/php/sapi.rs` lines 467-475). -/
def capture_reset : EmbedCapture :=
  { body := [], headers := [], status := 200, last_error := none }

/-- `sapi_header_op_enum` values distinguished by the header hook. -/
inductive SapiHeaderOp where
  | add
  | replace
  | delete
  | deleteAll
deriving DecidableEq, Repr

/-- Rust `trimmed.strip_prefix("Status:").or_else(.. "status:")`
(`src/php/sapi.rs` lines 151-154). -/
def strip_status_marker (s : List Char) : Option (List Char) :=
  if s.take 7 = "Status:".toList then some (s.drop 7)
  else if s.take 7 = "status:".toList then some (s.drop 7)
  else none

/-- `header_handler_hook` (`src/php/sapi.rs` lines 134-182): on ADD or
REPLACE, a `Status:` line sets the captured status instead of being
stored; any other `name: value` line is appended, REPLACE first removing
existing headers of the same name case-insensitively unless the name is
`Set-Cookie`; other ops and colon-less lines leave the capture unchanged. -/
def header_handler_hook (cap : EmbedCapture) (op : SapiHeaderOp)
    (line : List Char) : EmbedCapture :=
  if op = .add ∨ op = .replace then
    let trimmed := trimCrLf line
    match strip_status_marker trimmed with
    | some rest =>
      match splitWhitespaceFirst (rustTrim rest) with
      | some tok =>
        match parseU16 tok with
        | some code => { cap with status := code }
        | none => cap
      | none => cap
    | none =>
      match splitOnceColon trimmed with
      | some (name, value) =>
        let header_name := rustTrim name
        let header_value := rustTrim value
        let kept :=
          if op = .replace then
            let name_lower := toLowerAscii header_name
            if name_lower ≠ "set-cookie".toList then
              cap.headers.filter (fun p => toLowerAscii p.1 ≠ name_lower)
            else cap.headers
          else cap.headers
        { cap with headers := kept ++ [(header_name, header_value)] }
      | none => cap
  else cap

/-- `send_headers_hook` (`src/php/sapi.rs` lines 184-197): copies a
positive native `http_response_code` into the captured status. -/
def send_headers_hook (cap : EmbedCapture) (http_response_code : Int) :
    EmbedCapture :=
  if 0 < http_response_code then
    { cap with status := as_u16 http_response_code }
  else cap

/-- `ub_write_hook` (`src/php/sapi.rs` lines 120-131): appends the written
bytes to the captured body. -/
def ub_write_hook (cap : EmbedCapture) (bytes : List Nat) : EmbedCapture :=
  { cap with body := cap.body ++ bytes }

/-- `log_message_hook` (`src/php/sapi.rs` lines 239-272): records the most
recent message as the last error. -/
def log_message_hook (cap : EmbedCapture) (msg : List Char) : EmbedCapture :=
  { cap with last_error := some msg }

/-- One callback invocation the interpreter performs during a run. -/
inductive HookEvent where
  | header (op : SapiHeaderOp) (line : List Char)
  | send_headers (http_response_code : Int)
  | write (bytes : List Nat)
  | log_message (msg : List Char)

def apply_hook (cap : EmbedCapture) : HookEvent → EmbedCapture
  | .header op line => header_handler_hook cap op line
  | .send_headers c => send_headers_hook cap c
  | .write bs => ub_write_hook cap bs
  | .log_message m => log_message_hook cap m

/-- The capture state after a run that performed the given callbacks in
order, starting from the reset state. -/
def run_hooks (events : List HookEvent) : EmbedCapture :=
  events.foldl apply_hook capture_reset

/-- `PhpResponse` from `src/php/sapi.rs` lines 942-950. -/
structure PhpResponse where
  body : List Nat
  headers : List (List Char × List Char)
  status_code : Nat
deriving DecidableEq, Repr

/-- The response-assembly tail of `execute_script_on_thread`
(`src/php/sapi.rs` lines 659-728): status defaults to 200, a positive
native response-code field overrides it, the captured body replaces the
buffered output when non-empty, a captured status different from 200
overrides the status, and the result is successful iff the native call
succeeded or a non-default status, non-empty body or any captured header
exists; otherwise the last captured diagnostic is returned as the error. -/
def finish_request (success : Bool) (native_code : Int) (buffered : List Nat)
    (cap : EmbedCapture) : Except (List Char) PhpResponse :=
  let status1 : Nat := if 0 < native_code then as_u16 native_code else 200
  let body1 := if cap.body ≠ [] then cap.body else buffered
  let resp_headers := cap.headers
  let status2 := if cap.status ≠ 200 then cap.status else status1
  if success || (decide (status2 ≠ 200) || (decide (body1 ≠ []) ||
      decide (resp_headers ≠ []))) then
    .ok { body := body1, headers := resp_headers, status_code := status2 }
  else
    .error ("PHP script execution failed: ".toList ++
      cap.last_error.getD ("Unknown error".toList))

/-- `execute_script_on_thread` as a function of what the interpreter run
did: the callbacks it performed, whether `php_execute_script` reported
success, the final native response-code field, and the drained output
buffer. -/
def execute_script_on_thread (success : Bool) (events : List HookEvent)
    (native_code : Int) (buffered : List Nat) :
    Except (List Char) PhpResponse :=
  finish_request success native_code buffered (run_hooks events)

end Sapi

/-! ## The HTTP handler's PHP response assembly (`src/server/handler.rs`). -/

namespace Handler

/-- Rust `str::find(pat)`: index of the first occurrence of `pat`. -/
def find_sub (pat : List Char) : List Char → Option Nat
  | [] => if pat = [] then some 0 else none
  | c :: rest =>
    if pat.isPrefixOf (c :: rest) then some 0
    else (find_sub pat rest).map (· + 1)

/-- Rust `str::lines()`: split at `\n`, strip one trailing `\r` per line,
no final empty line for a trailing newline. -/
def rust_lines (s : List Char) : List (List Char) :=
  if s = [] then []
  else
    let segs := rustSplit '\n' s
    let segs := if segs.getLast? = some [] then segs.dropLast else segs
    segs.map (fun l => if l.getLast? = some '\r' then l.dropLast else l)

/-- A header name is valid when all its characters are ASCII alphanumeric,
`-` or `_` (`src/server/handler.rs` lines 356-358 and 370). -/
def header_name_valid (n : List Char) : Bool :=
  n.all (fun c => c.isAlphanum || c = '-' || c = '_')

/-- The opening-brace character, which disqualifies a first line from being
a header (`src/server/handler.rs` line 355). -/
def lbrace : Char := Char.ofNat 123

/-- The response `parse_php_response` assembles: the explicit status, the
content-type value, the headers pushed onto the builder, and the body. -/
structure HttpResponseModel where
  status : Nat
  content_type : List Char
  extra_headers : List (List Char × List Char)
  body : List Char
deriving DecidableEq, Repr

/-- One iteration of the header loop of `parse_php_response`
(`src/server/handler.rs` lines 364-401). -/
def process_header_line (st : Nat × List Char × List (List Char × List Char))
    (line : List Char) : Nat × List Char × List (List Char × List Char) :=
  let (status, ct, hdrs) := st
  match splitOnceColon line with
  | none => st
  | some (rawName, rawValue) =>
    let name := rustTrim rawName
    let value := rustTrim rawValue
    if ¬ header_name_valid name then st
    else if toLowerAscii name = "status".toList then
      match splitWhitespaceFirst value with
      | some tok =>
        match parseU16 tok with
        | some code =>
          ((if 100 ≤ code ∧ code ≤ 999 then code else 200), ct, hdrs)
        | none => st
      | none => st
    else if toLowerAscii name = "content-type".toList then
      (status, value, hdrs)
    else if toLowerAscii name = "location".toList then
      ((if status = 200 then 302 else status), ct,
       hdrs ++ [("Location".toList, value)])
    else if toLowerAscii name = "set-cookie".toList
        || toLowerAscii name = "cache-control".toList
        || toLowerAscii name = "expires".toList
        || toLowerAscii name = "pragma".toList
        || toLowerAscii name = "x-powered-by".toList
        || toLowerAscii name = "x-frame-options".toList
        || toLowerAscii name = "x-content-type-options".toList then
      (status, ct, hdrs ++ [(name, value)])
    else st

/-- `parse_php_response` (`src/server/handler.rs` lines 321-413): the
two-phase heuristic parser of combined header+body CGI output. -/
def parse_php_response (output : List Char) : HttpResponseModel :=
  let default_ct := "text/html; charset=utf-8".toList
  let no_headers : HttpResponseModel :=
    { status := 200, content_type := default_ct, extra_headers := [],
      body := output }
  let first_char := output.headD ' '
  if first_char.isAlpha then
    let separator_pos : Option (Nat × Nat) :=
      match find_sub ("\r\n\r\n".toList) output with
      | some pos => some (pos, 4)
      | none =>
        match find_sub ("\n\n".toList) output with
        | some pos => if pos < 500 then some (pos, 2) else none
        | none => none
    match separator_pos with
    | some (pos, skip) =>
      let headers_part := output.take pos
      let first_line := (rust_lines headers_part).headD []
      let has_valid_header := (':' ∈ first_line)
        ∧ first_line.headD ' ' ≠ '<'
        ∧ lbrace ∉ first_line
        ∧ header_name_valid (first_line.takeWhile (· ≠ ':'))
      if has_valid_header then
        let st := (rust_lines headers_part).foldl process_header_line
          (200, default_ct, [])
        { status := st.1, content_type := st.2.1, extra_headers := st.2.2,
          body := output.drop (pos + skip) }
      else no_headers
    | none => no_headers
  else no_headers

/-- Rust `str::eq_ignore_ascii_case`. -/
def eq_ignore_ascii_case (a b : List Char) : Bool :=
  toLowerAscii a = toLowerAscii b

/-- The HTTP response `build_embed_response` assembles. -/
structure EmbedHttpResponse where
  status : Nat
  headers : List (List Char × List Char)
  body : List Nat
deriving DecidableEq, Repr

/-- `build_embed_response` (`src/server/handler.rs` lines 284-315): the
embedded `PhpResponse` status (when a valid HTTP status, else 200) and all
its headers are copied onto the HTTP response, a default Content-Type is
added when none of them is a content-type, and the body is passed through. -/
def build_embed_response (resp : Sapi.PhpResponse) : EmbedHttpResponse :=
  let status := if 100 ≤ resp.status_code ∧ resp.status_code ≤ 999
    then resp.status_code else 200
  let content_type_set :=
    resp.headers.any (fun p => eq_ignore_ascii_case p.1 ("content-type".toList))
  { status,
    headers := resp.headers ++
      (if content_type_set then []
       else [("Content-Type".toList, "text/html; charset=utf-8".toList)]),
    body := resp.body }

end Handler

/-! ## Claims about the embedded runtime's header, status and redirect
handling. -/

/-- C6: the header hook appends on an add operation; on a replace
operation it removes every captured header whose name matches
case-insensitively and then appends — except that existing `Set-Cookie`
headers are never removed.  Consequently issuing `X: a` then replace
`X: b` leaves only `X: b`, while `Set-Cookie: a` then replace
`Set-Cookie: b` leaves both. -/
theorem c6_header_add_replace_semantics :
    (∀ cap : Sapi.EmbedCapture,
       Sapi.header_handler_hook cap .add ("X: b".toList) =
         { cap with headers := cap.headers ++ [("X".toList, "b".toList)] })
  ∧ (∀ cap : Sapi.EmbedCapture,
       Sapi.header_handler_hook cap .replace ("X: b".toList) =
         { cap with headers :=
             cap.headers.filter (fun p => toLowerAscii p.1 ≠ "x".toList)
             ++ [("X".toList, "b".toList)] })
  ∧ (∀ cap : Sapi.EmbedCapture,
       Sapi.header_handler_hook cap .replace ("Set-Cookie: b".toList) =
         { cap with headers :=
             cap.headers ++ [("Set-Cookie".toList, "b".toList)] })
  ∧ Sapi.run_hooks [.header .add ("X: a".toList),
                    .header .replace ("X: b".toList)] =
      { Sapi.capture_reset with headers := [("X".toList, "b".toList)] }
  ∧ Sapi.run_hooks [.header .add ("Set-Cookie: a".toList),
                    .header .replace ("Set-Cookie: b".toList)] =
      { Sapi.capture_reset with headers :=
          [("Set-Cookie".toList, "a".toList),
           ("Set-Cookie".toList, "b".toList)] } := by
  refine ⟨fun cap => rfl, fun cap => rfl, fun cap => rfl, by decide, by decide⟩

/-- C5 counterexample: a script that emits the explicit line
`Status: 200 OK` while the native response-code field is 500 gets final
status 500, not 200 — the explicit `Status:` line does not override the
native value when its code is 200, because the assembly only prefers the
captured status when it differs from 200. -/
theorem c5_counterexample_status_200_line :
    Sapi.execute_script_on_thread true
      [.header .replace ("Status: 200 OK".toList)] 500 [] =
      .ok { body := [], headers := [], status_code := 500 }
  ∧ (500 : Nat) ≠ 200 :=
  ⟨rfl, by decide⟩

/-- C5 amended: an explicit `Status:` line sets the captured status, and at
response assembly a captured status different from 200 overrides the
native response-code field, which in turn (when positive) overrides the
200 default; in particular `Status: 404 ...` always yields 404 regardless
of the native field, but an explicit `Status: 200` line is
indistinguishable from the default and a positive native value wins. -/
theorem c5_amended_status_precedence :
    (∀ cap : Sapi.EmbedCapture,
       Sapi.header_handler_hook cap .replace ("Status: 404 Not Found".toList)
         = { cap with status := 404 })
  ∧ (∀ (success : Bool) (n : Int) (buffered : List Nat),
       Sapi.execute_script_on_thread success
         [.header .replace ("Status: 404 Not Found".toList)] n buffered =
         .ok { body := buffered, headers := [], status_code := 404 })
  ∧ (∀ n : Int,
       Sapi.execute_script_on_thread true [] n [] =
         .ok { body := [], headers := [],
               status_code := if 0 < n then Sapi.as_u16 n else 200 }) := by
  refine ⟨fun cap => rfl, fun success n buffered => ?_, fun n => rfl⟩
  cases success <;> rfl

/-- C4: a script that emits `Location: /x` and then terminates early (the
native execution call reports failure, native redirect code 302) is
classified as successful: the embedded result is `ok` with the Location
header and status 302, an explicit `Status: 307` line overrides that
status, `build_embed_response` passes status and Location header through
to the HTTP response, and on the CGI path `parse_php_response` maps a
`Location:` header in the output to status 302 with the Location header
set. -/
theorem c4_location_early_exit_success :
    (∀ buffered : List Nat,
       Sapi.execute_script_on_thread false
         [.header .replace ("Location: /x".toList)] 302 buffered =
         .ok { body := buffered,
               headers := [("Location".toList, "/x".toList)],
               status_code := 302 })
  ∧ (∀ buffered : List Nat,
       Sapi.execute_script_on_thread false
         [.header .replace ("Location: /x".toList),
          .header .add ("Status: 307 Temporary Redirect".toList)] 302
         buffered =
         .ok { body := buffered,
               headers := [("Location".toList, "/x".toList)],
               status_code := 307 })
  ∧ (∀ buffered : List Nat,
       Handler.build_embed_response
         { body := buffered, headers := [("Location".toList, "/x".toList)],
           status_code := 302 } =
         { status := 302,
           headers := [("Location".toList, "/x".toList),
                       ("Content-Type".toList,
                        "text/html; charset=utf-8".toList)],
           body := buffered })
  ∧ Handler.parse_php_response ("Location: /x\r\n\r\nRedirecting".toList) =
      { status := 302, content_type := "text/html; charset=utf-8".toList,
        extra_headers := [("Location".toList, "/x".toList)],
        body := "Redirecting".toList } := by
  refine ⟨fun buffered => rfl, fun buffered => rfl, fun buffered => rfl,
    by decide⟩
